import Mathlib

/-
Verification development for the video relay pipeline:
a shallow embedding of the retrieval-and-archival core
(backend/src/utils/telegramDownload.ts, backend/src/utils/fileUtils.ts,
backend/src/services/videoDownloadService.ts (downloadAndUploadVideoToDrive),
backend/src/services/scheduledTasks.ts) together with theorems about it.

Error messages are modelled as lists of tokens: the code builds error
strings by concatenating marker constants (such as FILE_TOO_LARGE or
NO_VIDEO_FOUND) with free text, and tests them with substring checks
(message.includes of a marker).  A token list preserves exactly that
structure: concatenation is list append, an includes test is membership.
-/

set_option maxRecDepth 8000

/-- Marker tokens occurring in the error strings built by the code. -/
inductive Tok where
  | timeoutWord
  | notFoundWord
  | noVideoFound
  | telegramTimeout
  | telegramDownloadTimeout
  | telegramDownloadError
  | telegramDownloadFailed
  | fileTooLarge
  | telegramMessageNotFound
  | sessionNotConfigured
  | chatIdNotConfigured
  | firebaseNotConfigured
  | channelNotFound
  | noDestinationFolder
  | driveUploadFailed
  | oauthErrorLabel
  | serviceErrorLabel
  | oauthAdvice
  | text (s : String)
deriving DecidableEq

/-- An error message: the token decomposition of the thrown string. -/
abbrev ErrMsg := List Tok

/-- message.includes(marker) on the token decomposition. -/
def hasTok (e : ErrMsg) (t : Tok) : Bool := e.any (fun x => x == t)

/-! ### fileUtils.ts -/

/-- The characters removed by the regex [\\/:*?"<>|] in sanitizeFileName. -/
def isForbiddenFileChar (c : Char) : Bool :=
  c == '\\' || c == '/' || c == ':' || c == '*' || c == '?' ||
  c == '"' || c == '<' || c == '>' || c == '|'

/-- The JavaScript \s character class (whitespace as used by trim and the
\s+ replacement of sanitizeFileName). -/
def isJsSpace (c : Char) : Bool :=
  c == ' ' || c == '\t' || c == '\n' || c == '\r' ||
  c.val == 11 || c.val == 12 || c.val == 160 || c.val == 5760 ||
  (decide (8192 ≤ c.val) && decide (c.val ≤ 8202)) ||
  c.val == 8232 || c.val == 8233 || c.val == 8239 || c.val == 8287 ||
  c.val == 12288 || c.val == 65279

/-- str.replace of a regex class+ with a single replacement character:
every maximal run of characters satisfying p becomes one r. -/
def collapseRuns (p : Char → Bool) (r : Char) : List Char → List Char
  | [] => []
  | [c] => if p c then [r] else [c]
  | c :: d :: cs =>
    if p c then
      (if p d then collapseRuns p r (d :: cs) else r :: collapseRuns p r (d :: cs))
    else c :: collapseRuns p r (d :: cs)

/-- String.prototype.trim over the JavaScript whitespace class. -/
def jsTrim (l : List Char) : List Char :=
  ((l.dropWhile isJsSpace).reverse.dropWhile isJsSpace).reverse

/-- The replace of the regex anchored underscore runs at both ends. -/
def stripEdgeUnderscores (l : List Char) : List Char :=
  ((l.dropWhile (fun c => c == '_')).reverse.dropWhile (fun c => c == '_')).reverse

/-- The default file name used when sanitisation yields nothing. -/
def videoFallbackName : List Char := "video".data

/-- sanitizeFileName from fileUtils.ts, on the character list of the title.
The leading falsy-input guard is the title.isEmpty test; the non-string
input branch is modelled by sanitizeFileNameJs below. -/
def sanitizeFileName (title : List Char) : List Char :=
  if title.isEmpty then videoFallbackName
  else
    let s1 := jsTrim title
    let s2 := s1.map (fun c => if isForbiddenFileChar c then '_' else c)
    let s3 := collapseRuns isJsSpace '_' s2
    let s4 := collapseRuns (fun c => c == '_') '_' s3
    let s5 := stripEdgeUnderscores s4
    let s6 := s5.take 120
    if s6.isEmpty then videoFallbackName else s6

/-- sanitizeFileName including the branch that catches an input which is
not a string (modelled as none). -/
def sanitizeFileNameJs : Option (List Char) → List Char
  | none => videoFallbackName
  | some t => sanitizeFileName t

/-- The video container extensions of the regex (mp4|avi|mov|mkv|webm). -/
def videoExts : List (List Char) := ["mp4".data, "avi".data, "mov".data, "mkv".data, "webm".data]

/-- Case-insensitive test that s ends with a dot followed by ext. -/
def hasExtSuffix (s e : List Char) : Bool :=
  decide (e.length + 1 ≤ s.length) &&
  ((s.drop (s.length - (e.length + 1))).map Char.toLower == '.' :: e)

/-- The extension matched by the anchored regex of formatFileName, if any. -/
def findVideoExt (s : List Char) : Option (List Char) :=
  videoExts.find? (fun e => hasExtSuffix s e)

/-- Whether s ends in one of the video container extensions. -/
def hasVideoExt (s : List Char) : Bool := (findVideoExt s).isSome

/-- The replace that removes one trailing video extension if present. -/
def dropVideoExt (s : List Char) : List Char :=
  match findVideoExt s with
  | some e => s.take (s.length - (e.length + 1))
  | none => s

/-- Default extension of formatFileName. -/
def defaultVideoExtension : List Char := ".mp4".data

/-- formatFileName with an explicit extension argument. -/
def formatFileNameWith (title ext : List Char) : List Char :=
  dropVideoExt (sanitizeFileName title) ++ ext

/-- formatFileName with the default .mp4 extension. -/
def formatFileName (title : List Char) : List Char :=
  formatFileNameWith title defaultVideoExtension

/-! ### telegram message model and telegramDownload.ts -/

/-- The video attachment of a message (the .video field). -/
structure TgVideo where
  deleted : Bool
deriving DecidableEq

/-- A document attachment (the .document field): attribute class names,
MIME hint and declared file name. -/
structure TgDoc where
  attributes : List String
  mimeType : Option String
  fileName : Option (List Char)
deriving DecidableEq

/-- A chat transport message as inspected by the downloader. -/
structure TgMessage where
  id : Nat
  date : Option Nat
  video : Option TgVideo
  document : Option TgDoc
deriving DecidableEq

/-- The MIME test of the video filter: video/ or application/octet-stream. -/
def mimeIsVideoLike (mt : String) : Bool :=
  mt.data.take 6 == ("video/").data || mt == "application/octet-stream"

/-- Whether a declared file name matches the video container regex. -/
def fileNameIsVideo (fn : List Char) : Bool :=
  videoExts.any (fun e => hasExtSuffix fn e)

/-- The qualification predicate of the downloader filter: an undeleted
inline video, or a document whose attributes assert a video kind and whose
MIME or declared name looks like video. -/
def isVideoMessage (m : TgMessage) : Bool :=
  let hasVideo :=
    match m.video with
    | some v => !v.deleted
    | none => false
  let hasDocVideo :=
    match m.document with
    | some d =>
      (d.attributes.any (fun a => a == "DocumentAttributeVideo" || a == "MessageMediaDocument")) &&
      ((match d.mimeType with
        | some mt => mimeIsVideoLike mt
        | none => false) ||
       (match d.fileName with
        | some fn => fileNameIsVideo fn
        | none => false))
    | none => false
  hasVideo || hasDocVideo

/-- The sort key of the recency comparator: milliseconds from the date
when present and nonzero (seconds times 1000), else the message id. -/
def sortKeyOf (m : TgMessage) : Nat :=
  match m.date with
  | some d => if d == 0 then m.id else d * 1000
  | none => m.id

/-- Stable insertion for the descending-by-key sort. -/
def insertByKeyDesc (m : TgMessage) : List TgMessage → List TgMessage
  | [] => [m]
  | x :: xs =>
    if sortKeyOf x ≤ sortKeyOf m then m :: x :: xs else x :: insertByKeyDesc m xs

/-- The stable descending sort of the comparator dateB - dateA. -/
def sortByDateDesc : List TgMessage → List TgMessage
  | [] => []
  | x :: xs => insertByKeyDesc x (sortByDateDesc xs)

/-- The chat transport as seen by the downloader: the recent messages
(most recent first, as getMessages returns them), the possible failures of
the two listing calls, and the outcome of downloadMedia per message id
(either an error or the byte length of the fetched buffer). -/
structure Transport where
  msgs : List TgMessage
  getByIdErr : Option ErrMsg
  getRecentErr : Option ErrMsg
  mediaResult : Nat → Except ErrMsg Nat

/-- MAX_FILE_SIZE from telegramDownload.ts. -/
def MAX_FILE_SIZE : Nat := 100 * 1024 * 1024

/-- The staging directory state: the list of file paths present. -/
abbrev FsState := List String

/-- fs.writeFile: the path is present afterwards. -/
def fsWrite (fs : FsState) (p : String) : FsState :=
  if p ∈ fs then fs else fs ++ [p]

/-- The getMessages call with ids:[messageId], including the timeout wrap
of its surrounding try/catch and the empty-result check. -/
def lookupById (tr : Transport) (mid : Nat) : Except ErrMsg TgMessage :=
  match tr.getByIdErr with
  | some e => .error (if hasTok e .timeoutWord then [Tok.telegramTimeout] else e)
  | none =>
    match tr.msgs.find? (fun m => m.id == mid) with
    | some m => .ok m
    | none => .error [Tok.notFoundWord]

/-- The getMessages call with limit:50, including the timeout wrap. -/
def listRecent (tr : Transport) : Except ErrMsg (List TgMessage) :=
  match tr.getRecentErr with
  | some e => .error (if hasTok e .timeoutWord then [Tok.telegramTimeout] else e)
  | none => .ok (tr.msgs.take 50)

/-- The message-selection step of downloadTelegramVideoToTemp: when a
message id is supplied (and truthy), the code fetches exactly that message
by id; otherwise it filters the 50 most recent messages for videos, sorts
them by date descending and takes the head. -/
def locateVideoMessage (tr : Transport) (anchor : Option Nat) : Except ErrMsg TgMessage :=
  if anchor.getD 0 ≠ 0 then lookupById tr (anchor.getD 0)
  else
    match listRecent tr with
    | .error e => .error e
    | .ok ms =>
      match sortByDateDesc (ms.filter isVideoMessage) with
      | [] => .error [Tok.noVideoFound]
      | m :: _ => .ok m

/-- The default file name derived from the message when the document
declares none. -/
def vidDefaultName (m : TgMessage) : List Char :=
  match m.video with
  | some _ => ("video_" ++ toString m.id ++ ".mp4").data
  | none => "video.mp4".data

/-- The declared original file name of the selected message. -/
def originalNameOf (m : TgMessage) : List Char :=
  match m.document with
  | some d =>
    match d.fileName with
    | some fn => if fn.isEmpty then vidDefaultName m else fn
    | none => vidDefaultName m
  | none => vidDefaultName m

/-- path.extname on a bare file name. -/
def extnameList (n : List Char) : List Char :=
  if (n.drop 1).contains '.' then
    '.' :: (n.reverse.takeWhile (fun c => !(c == '.'))).reverse
  else []

/-- The extension of the temp file: the original extension or .mp4. -/
def extnameOrMp4 (n : List Char) : List Char :=
  let e := extnameList n
  if e.isEmpty then defaultVideoExtension else e

/-- A successful download: temp path, declared name, source message id. -/
structure DlOk where
  tempPath : String
  origFileName : List Char
  messageId : Nat
deriving DecidableEq

/-- The body of downloadTelegramVideoToTemp before its outer catch:
locate the message, fetch the media into a buffer (with the timeout and
error wraps of its catch), reject an empty buffer, write the buffer to the
uniquely named temp file, and reject a zero-size or oversized file after
deleting it.  The unique temp name is tmpPrefix (timestamp and random
suffix) followed by the preserved extension. -/
def telegramDownloadBody (tr : Transport) (anchor : Option Nat) (tmpPrefix : String)
    (fs : FsState) : Except ErrMsg DlOk × FsState :=
  match locateVideoMessage tr anchor with
  | .error e => (.error e, fs)
  | .ok m =>
    let orig := originalNameOf m
    let tempPath := tmpPrefix ++ String.mk (extnameOrMp4 orig)
    match tr.mediaResult m.id with
    | .error e =>
      (.error (if hasTok e .timeoutWord then [Tok.telegramDownloadTimeout]
               else Tok.telegramDownloadError :: e), fs)
    | .ok len =>
      if len == 0 then (.error [Tok.telegramDownloadFailed], fs)
      else
        let fs1 := fsWrite fs tempPath
        if len == 0 then (.error [Tok.telegramDownloadFailed], fs1.erase tempPath)
        else if MAX_FILE_SIZE < len then (.error [Tok.fileTooLarge], fs1.erase tempPath)
        else (.ok ⟨tempPath, orig, m.id⟩, fs1)

/-- downloadTelegramVideoToTemp: the body above, with the outer catch that
re-raises NO_VIDEO_FOUND unchanged, maps a not-found error to
TELEGRAM_MESSAGE_NOT_FOUND, and wraps everything else in
TELEGRAM_DOWNLOAD_ERROR. -/
def downloadTelegramVideoToTemp (tr : Transport) (anchor : Option Nat) (tmpPrefix : String)
    (fs : FsState) : Except ErrMsg DlOk × FsState :=
  match telegramDownloadBody tr anchor tmpPrefix fs with
  | (.ok r, fs1) => (.ok r, fs1)
  | (.error e, fs1) =>
    (.error (if hasTok e .noVideoFound then e
             else if hasTok e .notFoundWord then [Tok.telegramMessageNotFound]
             else Tok.telegramDownloadError :: e), fs1)

/-- The temp path the downloader would use, when it selects a message. -/
def plannedTempPath (tr : Transport) (anchor : Option Nat) (tmpPrefix : String) : Option String :=
  match locateVideoMessage tr anchor with
  | .ok m => some (tmpPrefix ++ String.mk (extnameOrMp4 (originalNameOf m)))
  | .error _ => none

/-- The generated temp name does not collide with an existing staged file
(the code guarantees this by a timestamp plus random suffix). -/
def freshFor (tr : Transport) (anchor : Option Nat) (tmpPrefix : String) (fs : FsState) : Bool :=
  match plannedTempPath tr anchor tmpPrefix with
  | some p => decide (p ∉ fs)
  | none => true

/-! ### videoDownloadService.ts: downloadAndUploadVideoToDrive -/

/-- Observable calls made to collaborators during an orchestration run. -/
inductive Ev where
  | connect
  | disconnect
  | getTokens
  | refreshCall
  | updateAccessToken (userId token : String) (expiry : Nat)
  | uploadOAuth (accessToken fileName folderId : String)
  | uploadService (fileName folderId : String)
  | persist
deriving DecidableEq

/-- Whether an event is a service-account upload call. -/
def isServiceEv : Ev → Bool
  | .uploadService _ _ => true
  | _ => false

/-- The stored delegated credential record of the user. -/
structure OAuthTokens where
  accessToken : Option String
  refreshToken : Option String
  expiry : Option Nat
deriving DecidableEq

/-- The credentials object returned by refreshAccessToken. -/
structure RefreshCreds where
  newAccessToken : String
  expiryDate : Option Nat
deriving DecidableEq

/-- The result of a successful Drive upload. -/
structure DriveFile where
  fileId : String
  webViewLink : Option String
  webContentLink : Option String
deriving DecidableEq

/-- The channel document read from the store. -/
structure ChannelDoc where
  name : Option String
  googleDriveFolderId : Option String
deriving DecidableEq

/-- The environment of one orchestration run: configuration, collaborator
lookups, and oracles for the outcome of each external call.  The nth
service-account upload of the run takes its outcome from
serviceUploadResults n; the delegated upload outcome may depend on the
access token passed. -/
structure OrchEnv where
  sessionString : Option String
  synxChatId : Option String
  firestoreAvailable : Bool
  channel : Option ChannelDoc
  defaultParent : Option String
  connectErr : Option ErrMsg
  transport : Transport
  tmpPrefix : String
  now : Nat
  tokensResult : Except ErrMsg (Option OAuthTokens)
  refreshResult : Except ErrMsg RefreshCreds
  oauthUploadResult : String → Except ErrMsg DriveFile
  serviceUploadResults : Nat → Except ErrMsg DriveFile

/-- The options argument of downloadAndUploadVideoToDrive. -/
structure OrchOptions where
  channelId : String
  userId : String
  telegramMessageId : Option Nat
  videoTitle : Option (List Char)
  scheduleId : Option String

/-- The DownloadAndUploadResult interface. -/
structure DownloadAndUploadResult where
  success : Bool
  driveFileId : Option String
  driveWebViewLink : Option String
  driveWebContentLink : Option String
  fileName : Option String
  error : Option ErrMsg
deriving DecidableEq

/-- The full outcome of a run: returned value, staging directory state,
and the trace of collaborator calls. -/
structure OrchOut where
  result : DownloadAndUploadResult
  fs : FsState
  trace : List Ev
deriving DecidableEq

/-- JavaScript truthiness of an optional string. -/
def truthy : Option String → Bool
  | some s => !(s == "")
  | none => false

/-- The session precondition: loadSessionString() returned a truthy value. -/
def sessionPresent (env : OrchEnv) : Bool := truthy env.sessionString

/-- The chat id precondition: SYNX_CHAT_ID is truthy. -/
def chatPresent (env : OrchEnv) : Bool := truthy env.synxChatId

/-- The value?.trim() || undefined normalisation of a folder id. -/
def trimNonempty : Option String → Option String
  | none => none
  | some s =>
    let t := String.mk (jsTrim s.data)
    if t == "" then none else some t

/-- Destination resolution: the channel folder id, else the default. -/
def resolvedFolder (env : OrchEnv) (ch : ChannelDoc) : Option String :=
  match trimNonempty ch.googleDriveFolderId with
  | some f => some f
  | none => trimNonempty env.defaultParent

/-- The \w or dash class of the channel-name fallback regex. -/
def isWordChar (c : Char) : Bool := c.isAlphanum || c == '_' || c == '-'

/-- channelData.name sanitised by the fallback-name regex and length cap,
with the channel_id default. -/
def safeChannelName (name : Option String) (channelId : String) : String :=
  match name with
  | some n =>
    let s := String.mk ((collapseRuns (fun c => !(isWordChar c)) '_' n.data).take 50)
    if s == "" then "channel_" ++ channelId else s
  | none => "channel_" ++ channelId

/-- The fallback Drive file name: channel name plus timestamp plus .mp4. -/
def fallbackDriveName (env : OrchEnv) (ch : ChannelDoc) (channelId : String) : String :=
  safeChannelName ch.name channelId ++ "_" ++ toString env.now ++ ".mp4"

/-- Name resolution of step 2: formatFileName of a truthy videoTitle, else
the channel-name fallback. -/
def driveNameOf (env : OrchEnv) (ch : ChannelDoc) (opts : OrchOptions) : String :=
  match opts.videoTitle with
  | some t => if t.isEmpty then fallbackDriveName env ch opts.channelId else String.mk (formatFileName t)
  | none => fallbackDriveName env ch opts.channelId

/-- credentials.expiry_date || Date.now() + 3600000. -/
def refreshedExpiry (creds : RefreshCreds) (now : Nat) : Nat :=
  match creds.expiryDate with
  | some d => if d == 0 then now + 3600000 else d
  | none => now + 3600000

/-- isExpired && refresh token present: the guard of the refresh branch. -/
def refreshNeeded (tk : OAuthTokens) (now : Nat) : Bool :=
  (match tk.expiry with
   | some e0 => !(e0 == 0) && decide (e0 < now)
   | none => false) &&
  (match tk.refreshToken with
   | some r => !(r == "")
   | none => false)

/-- The GOOGLE_DRIVE_UPLOAD_FAILED message: it embeds the OAuth-path error
under the OAuth label and the service-account error under its label. -/
def mkCombinedUploadError (e1 e2 : ErrMsg) : ErrMsg :=
  Tok.driveUploadFailed :: Tok.oauthErrorLabel :: e1 ++ Tok.serviceErrorLabel :: e2 ++ [Tok.oauthAdvice]

/-- The try block of the upload step: read the user tokens; with a truthy
access token refresh it when expired (persisting the new token) and upload
with OAuth, otherwise upload with the service account.  Returns the
outcome together with the collaborator calls made. -/
def oauthTryBlock (env : OrchEnv) (userId fileName folderId : String) :
    Except ErrMsg DriveFile × List Ev :=
  match env.tokensResult with
  | .error e => (.error e, [.getTokens])
  | .ok none => (env.serviceUploadResults 0, [.getTokens, .uploadService fileName folderId])
  | .ok (some tk) =>
    match tk.accessToken with
    | none => (env.serviceUploadResults 0, [.getTokens, .uploadService fileName folderId])
    | some a =>
      if a == "" then (env.serviceUploadResults 0, [.getTokens, .uploadService fileName folderId])
      else if refreshNeeded tk env.now then
        match env.refreshResult with
        | .error e => (.error e, [.getTokens, .refreshCall])
        | .ok creds =>
          (env.oauthUploadResult creds.newAccessToken,
           [.getTokens, .refreshCall,
            .updateAccessToken userId creds.newAccessToken (refreshedExpiry creds env.now),
            .uploadOAuth creds.newAccessToken fileName folderId])
      else
        (env.oauthUploadResult a, [.getTokens, .uploadOAuth a fileName folderId])

/-- The upload step with its catch: when the try block throws, retry once
with the service account; when that also throws, raise the combined
GOOGLE_DRIVE_UPLOAD_FAILED error naming both failures. -/
def uploadPhase (env : OrchEnv) (userId fileName folderId : String) :
    Except ErrMsg DriveFile × List Ev :=
  match oauthTryBlock env userId fileName folderId with
  | (.ok d, evs) => (.ok d, evs)
  | (.error e1, evs) =>
    match env.serviceUploadResults ((evs.filter isServiceEv).length) with
    | .ok d => (.ok d, evs ++ [.uploadService fileName folderId])
    | .error e2 => (.error (mkCombinedUploadError e1 e2), evs ++ [.uploadService fileName folderId])

/-- A failure result: success false, an error message, no asset fields. -/
def mkFailure (e : ErrMsg) : DownloadAndUploadResult :=
  ⟨false, none, none, none, none, some e⟩

/-- A success result: the Drive fields and the file name, no error. -/
def mkSuccessResult (d : DriveFile) (fn : String) : DownloadAndUploadResult :=
  ⟨true, some d.fileId, d.webViewLink, d.webContentLink, some fn, none⟩

/-- downloadAndUploadVideoToDrive: precondition checks (session, chat id,
store, channel, destination folder), connect, download, name resolution,
upload with fallback, cleanup of the staged file on success and in the
outer catch, best-effort persistence, disconnect in the finally. -/
def downloadAndUploadVideoToDrive (env : OrchEnv) (opts : OrchOptions) (fs : FsState) : OrchOut :=
  if !(sessionPresent env) then ⟨mkFailure [Tok.sessionNotConfigured], fs, []⟩
  else if !(chatPresent env) then ⟨mkFailure [Tok.chatIdNotConfigured], fs, []⟩
  else if !env.firestoreAvailable then ⟨mkFailure [Tok.firebaseNotConfigured], fs, []⟩
  else
    match env.channel with
    | none => ⟨mkFailure [Tok.channelNotFound], fs, []⟩
    | some ch =>
      match resolvedFolder env ch with
      | none => ⟨mkFailure [Tok.noDestinationFolder], fs, []⟩
      | some folderId =>
        match env.connectErr with
        | some e => ⟨mkFailure e, fs, []⟩
        | none =>
          match downloadTelegramVideoToTemp env.transport opts.telegramMessageId env.tmpPrefix fs with
          | (.error e, fs1) => ⟨mkFailure e, fs1, [.connect, .disconnect]⟩
          | (.ok r, fs1) =>
            let fn := driveNameOf env ch opts
            match uploadPhase env opts.userId fn folderId with
            | (.error e, upEvs) =>
              ⟨mkFailure e, fs1.erase r.tempPath, .connect :: upEvs ++ [.disconnect]⟩
            | (.ok d, upEvs) =>
              ⟨mkSuccessResult d fn, fs1.erase r.tempPath, .connect :: upEvs ++ [.persist, .disconnect]⟩

/-! ### scheduledTasks.ts -/

/-- A live scheduled task.  Every stored task carries an armed timer
(timeoutId is always set before the task is stored), so the timer handle
is left implicit. -/
structure STask where
  id : String
  channelId : String
  scheduleId : String
  userId : String
  runAt : Nat
  telegramMessageId : Option Nat
deriving DecidableEq

/-- The activeTasks Map: insertion-ordered key-value entries. -/
abbrev SchedState := List (String × STask)

/-- Map.prototype.set: replace in place when the key exists, else append. -/
def mapSet (st : SchedState) (k : String) (v : STask) : SchedState :=
  if st.any (fun e => e.1 == k) then
    st.map (fun e => if e.1 == k then (k, v) else e)
  else st ++ [(k, v)]

/-- Map.prototype.delete. -/
def mapDelete (st : SchedState) (k : String) : SchedState :=
  st.filter (fun e => !(e.1 == k))

/-- Map.prototype.get. -/
def mapGet (st : SchedState) (k : String) : Option STask :=
  (st.find? (fun e => e.1 == k)).map Prod.snd

/-- Whether a task belongs to the (channelId, scheduleId) pair. -/
def matchesPair (t : STask) (ch sch : String) : Bool :=
  t.channelId == ch && t.scheduleId == sch

/-- scheduleAutoDownload: build the task id from the pair and the clock,
cancel the first live task found for the same pair, store the new task
with due time now plus delayMinutes in milliseconds. -/
def scheduleAutoDownload (st : SchedState) (channelId scheduleId userId : String)
    (messageId delayMinutes now : Nat) : String × SchedState :=
  let taskId := channelId ++ "_" ++ scheduleId ++ "_" ++ toString now
  let runAt := now + delayMinutes * 60 * 1000
  let st1 :=
    match (st.map Prod.snd).find? (fun t => matchesPair t channelId scheduleId) with
    | some t0 => mapDelete st t0.id
    | none => st
  (taskId, mapSet st1 taskId ⟨taskId, channelId, scheduleId, userId, runAt, some messageId⟩)

/-- cancelScheduledTask: disarm and remove when present. -/
def cancelScheduledTask (st : SchedState) (taskId : String) : Bool × SchedState :=
  match mapGet st taskId with
  | some _ => (true, mapDelete st taskId)
  | none => (false, st)

/-- cancelTasksForSchedule: remove every live task of the pair. -/
def cancelTasksForSchedule (st : SchedState) (ch sch : String) : Nat × SchedState :=
  ((st.filter (fun e => matchesPair e.2 ch sch)).length,
   st.filter (fun e => !(matchesPair e.2 ch sch)))

/-- The task summary returned by getActiveTasks (runAt is kept numeric;
the code renders it as an ISO string, an injective rendering). -/
structure TaskSummary where
  id : String
  channelId : String
  scheduleId : String
  userId : String
  runAt : Nat
  telegramMessageId : Option Nat
deriving DecidableEq

/-- getActiveTasks: a snapshot of the live table. -/
def getActiveTasks (st : SchedState) : List TaskSummary :=
  st.map (fun e => ⟨e.2.id, e.2.channelId, e.2.scheduleId, e.2.userId, e.2.runAt, e.2.telegramMessageId⟩)

/-- One exposed scheduler call. -/
inductive SchedOp where
  | schedule (channelId scheduleId userId : String) (messageId delayMinutes now : Nat)
  | cancel (taskId : String)
  | cancelFor (channelId scheduleId : String)

/-- Apply one scheduler call to the live table. -/
def applySchedOp (st : SchedState) : SchedOp → SchedState
  | .schedule c s u m d n => (scheduleAutoDownload st c s u m d n).2
  | .cancel tid => (cancelScheduledTask st tid).2
  | .cancelFor c s => (cancelTasksForSchedule st c s).2

/-- Run a sequence of scheduler calls from the empty table. -/
def runSchedOps (ops : List SchedOp) : SchedState :=
  ops.foldl applySchedOp []

/-- The entries of the live table belonging to a pair. -/
def pairEntries (st : SchedState) (ch sch : String) : SchedState :=
  st.filter (fun e => matchesPair e.2 ch sch)

/-! ### concrete fixtures for closed instances -/

instance decEqExceptErr {α : Type} [DecidableEq α] : DecidableEq (Except ErrMsg α) := fun a b =>
  match a, b with
  | .ok x, .ok y => if h : x = y then .isTrue (by rw [h]) else .isFalse (by intro hc; cases hc; exact h rfl)
  | .error x, .error y => if h : x = y then .isTrue (by rw [h]) else .isFalse (by intro hc; cases hc; exact h rfl)
  | .ok _, .error _ => .isFalse (by intro hc; cases hc)
  | .error _, .ok _ => .isFalse (by intro hc; cases hc)

/-- A prompt message: text only, no video, no document, sent at time 100. -/
def syntxPromptMessage : TgMessage := ⟨5, some 100, none, none⟩

/-- The rendered video message, sent later (time 200). -/
def syntxVideoMessage : TgMessage := ⟨6, some 200, some ⟨false⟩, none⟩

/-- A chat whose recent window holds the video (id 6) and, before it, the
prompt (id 5); every media fetch yields one byte. -/
def anchorChat : Transport :=
  ⟨[syntxVideoMessage, syntxPromptMessage], none, none, fun _ => .ok 1⟩

/-- A transport with a single video message and a one-byte media fetch. -/
def trOk : Transport := ⟨[⟨6, some 200, some ⟨false⟩, none⟩], none, none, fun _ => .ok 1⟩

/-- A transport whose media fetch returns an empty buffer. -/
def trEmptyMedia : Transport := ⟨[⟨6, some 200, some ⟨false⟩, none⟩], none, none, fun _ => .ok 0⟩

/-- A channel document with a name and a configured folder. -/
def chOk : ChannelDoc := ⟨some ("Chan"), some ("folder")⟩

/-- Options of a manual run without a title. -/
def optsW : OrchOptions := ⟨"ch1", "u1", none, none, none⟩

/-- Environment of a fully successful run using the service account. -/
def envSuccess : OrchEnv :=
  ⟨some ("sess"), some ("chat"), true, some chOk, none, none, trOk, "tmp_", 1000,
   .ok none, .error [], fun _ => .error [], fun _ => .ok ⟨"fid", none, none⟩⟩

/-- Environment where the delegated upload and the service retry fail. -/
def envBothUploadsFail : OrchEnv :=
  ⟨some ("sess"), some ("chat"), true, some chOk, none, none, trOk, "tmp_", 1000,
   .ok (some ⟨some ("tokA"), none, none⟩), .error [],
   fun _ => .error [Tok.text ("oauthBoom")], fun _ => .error [Tok.text ("svcBoom")]⟩

/-- Environment with an expired delegated token and a refresh token; the
refreshed token uploads successfully. -/
def envRefresh : OrchEnv :=
  ⟨some ("sess"), some ("chat"), true, some chOk, none, none, trOk, "tmp_", 1000,
   .ok (some ⟨some ("oldTok"), some ("refTok"), some 500⟩),
   .ok ⟨"newTok", some 9999⟩,
   fun _ => .ok ⟨"fid2", none, none⟩, fun _ => .error []⟩

/-- Environment whose channel has no folder and no default is set. -/
def envNoFolder : OrchEnv :=
  ⟨some ("sess"), some ("chat"), true, some ⟨some ("Chan"), none⟩, none, none, trOk, "tmp_", 1000,
   .ok none, .error [], fun _ => .error [], fun _ => .error []⟩

/-- Environment with no stored delegated token where both service-account
upload calls fail. -/
def envNoTokenDoubleFail : OrchEnv :=
  ⟨some ("sess"), some ("chat"), true, some chOk, none, none, trOk, "tmp_", 1000,
   .ok none, .error [],
   fun _ => .error [Tok.text ("neverCalled")],
   fun n => if n == 0 then .error [Tok.text ("svcFirst")] else .error [Tok.text ("svcSecond")]⟩

/-- Environment of a successful run used for the empty-media fixture. -/
def envEmptyMedia : OrchEnv :=
  ⟨some ("sess"), some ("chat"), true, some chOk, none, none, trEmptyMedia, "tmp_", 1000,
   .ok none, .error [], fun _ => .error [], fun _ => .ok ⟨"fid", none, none⟩⟩

/-- Well-formedness of the live-task table: keys are distinct, each task
records its own key as id, and each (channel, schedule) pair owns at most
one live task. -/
def SchedInv (st : SchedState) : Prop :=
  (st.map Prod.fst).Nodup ∧ (∀ e ∈ st, e.2.id = e.1) ∧
  ∀ c s, (pairEntries st c s).length ≤ 1

/-! ### theorems -/

/-- Claim C1: refuted on the code.  When an anchor message id is supplied,
downloadTelegramVideoToTemp does NOT run the recency selection over the
recent window: it fetches the message with exactly that id and downloads
its media.  On a chat where the anchor (id 5) is the prompt message and a
qualifying video (id 6) was sent after it, the locate step with the anchor
returns the prompt message itself, which is not a video message, while the
recency selection the claim describes (the no-anchor path) returns the
video message; the download step then fetches the media of message 5.
This contradicts the explicit comments at the call site in
downloadAndUploadVideoToDrive, which state the id is passed only as a
marker and that the message with this id is not fetched. -/
theorem anchor_used_as_direct_lookup :
    locateVideoMessage anchorChat (some 5) = .ok syntxPromptMessage ∧
    isVideoMessage syntxPromptMessage = false ∧
    locateVideoMessage anchorChat none = .ok syntxVideoMessage ∧
    (downloadTelegramVideoToTemp anchorChat (some 5) ("t_") []).1 =
      .ok ⟨"t_.mp4", "video.mp4".data, 5⟩ := by
  refine ⟨?_, ?_, ?_, ?_⟩ <;> decide

/-- Characters surviving collapseRuns: the replacement character, or an
input character at which the collapsed predicate is false. -/
theorem mem_collapseRuns {p : Char → Bool} {r : Char} :
    ∀ l : List Char, ∀ c, c ∈ collapseRuns p r l → c = r ∨ (c ∈ l ∧ p c = false)
  | [] => by intro c hc; simp [collapseRuns] at hc
  | [a] => by
      intro c hc
      cases hpa : p a with
      | true => simp [collapseRuns, hpa] at hc; exact Or.inl hc
      | false =>
        simp [collapseRuns, hpa] at hc
        exact Or.inr ⟨by simp [hc], hc ▸ hpa⟩
  | a :: b :: t => by
      intro c hc
      cases hpa : p a with
      | true =>
        cases hpb : p b with
        | true =>
          simp only [collapseRuns, hpa, hpb, if_true] at hc
          rcases mem_collapseRuns (b :: t) c hc with h | ⟨hm, hp⟩
          · exact Or.inl h
          · exact Or.inr ⟨List.mem_cons_of_mem _ hm, hp⟩
        | false =>
          simp only [collapseRuns, hpa, hpb, if_true, if_false, Bool.false_eq_true] at hc
          rcases List.mem_cons.mp hc with h | h
          · exact Or.inl h
          · rcases mem_collapseRuns (b :: t) c h with h2 | ⟨hm, hp⟩
            · exact Or.inl h2
            · exact Or.inr ⟨List.mem_cons_of_mem _ hm, hp⟩
      | false =>
        simp only [collapseRuns, hpa, if_false, Bool.false_eq_true] at hc
        rcases List.mem_cons.mp hc with h | h
        · exact Or.inr ⟨by simp [h], h ▸ hpa⟩
        · rcases mem_collapseRuns (b :: t) c h with h2 | ⟨hm, hp⟩
          · exact Or.inl h2
          · exact Or.inr ⟨List.mem_cons_of_mem _ hm, hp⟩

/-- Membership is preserved backwards through stripEdgeUnderscores. -/
theorem mem_of_mem_stripEdgeUnderscores {l : List Char} {c : Char}
    (h : c ∈ stripEdgeUnderscores l) : c ∈ l := by
  unfold stripEdgeUnderscores at h
  rw [List.mem_reverse] at h
  have h1 := (List.dropWhile_sublist _).subset h
  rw [List.mem_reverse] at h1
  exact (List.dropWhile_sublist _).subset h1

/-- Membership is preserved backwards through jsTrim. -/
theorem mem_of_mem_jsTrim {l : List Char} {c : Char} (h : c ∈ jsTrim l) : c ∈ l := by
  unfold jsTrim at h
  rw [List.mem_reverse] at h
  have h1 := (List.dropWhile_sublist _).subset h
  rw [List.mem_reverse] at h1
  exact (List.dropWhile_sublist _).subset h1

/-- Every character of a sanitised name is neither forbidden nor
whitespace. -/
theorem sanitizeFileName_chars (t : List Char) :
    ∀ c ∈ sanitizeFileName t, isForbiddenFileChar c = false ∧ isJsSpace c = false := by
  intro c hc
  unfold sanitizeFileName at hc
  by_cases h0 : t.isEmpty
  · simp only [h0, if_true] at hc
    simp only [videoFallbackName] at hc
    fin_cases hc <;> decide
  · simp only [h0, if_false, Bool.false_eq_true] at hc
    by_cases h6 : (((stripEdgeUnderscores
        (collapseRuns (fun c => c == '_') '_'
          (collapseRuns isJsSpace '_'
            ((jsTrim t).map fun c => if isForbiddenFileChar c then '_' else c)))).take 120).isEmpty)
    · simp only [h6, if_true] at hc
      simp only [videoFallbackName] at hc
      fin_cases hc <;> decide
    · simp only [h6, if_false, Bool.false_eq_true] at hc
      have h5 := List.take_subset 120 _ hc
      have h4 := mem_of_mem_stripEdgeUnderscores h5
      rcases mem_collapseRuns _ c h4 with rfl | ⟨h3, _⟩
      · exact ⟨by decide, by decide⟩
      rcases mem_collapseRuns _ c h3 with rfl | ⟨h2, hws⟩
      · exact ⟨by decide, by decide⟩
      rcases List.mem_map.mp h2 with ⟨d, _, hd⟩
      by_cases hfd : isForbiddenFileChar d
      · simp only [hfd, if_true] at hd
        exact ⟨by rw [← hd]; decide, by rw [← hd]; decide⟩
      · simp only [hfd, if_false, Bool.false_eq_true] at hd
        subst hd
        exact ⟨by simpa using hfd, hws⟩

/-- A sanitised name is never empty. -/
theorem sanitizeFileName_ne_nil (t : List Char) : sanitizeFileName t ≠ [] := by
  unfold sanitizeFileName
  by_cases h0 : t.isEmpty
  · simp [h0, videoFallbackName]
  · simp only [h0, if_false, Bool.false_eq_true]
    by_cases h6 : (((stripEdgeUnderscores
        (collapseRuns (fun c => c == '_') '_'
          (collapseRuns isJsSpace '_'
            ((jsTrim t).map fun c => if isForbiddenFileChar c then '_' else c)))).take 120).isEmpty)
    · simp [h6, videoFallbackName]
    · simp only [h6, if_false, Bool.false_eq_true]
      intro hnil
      rw [hnil] at h6
      exact h6 rfl

/-- A sanitised name has at most 120 characters. -/
theorem sanitizeFileName_length_le (t : List Char) : (sanitizeFileName t).length ≤ 120 := by
  unfold sanitizeFileName
  by_cases h0 : t.isEmpty
  · simp [h0, videoFallbackName]
  · simp only [h0, if_false, Bool.false_eq_true]
    by_cases h6 : (((stripEdgeUnderscores
        (collapseRuns (fun c => c == '_') '_'
          (collapseRuns isJsSpace '_'
            ((jsTrim t).map fun c => if isForbiddenFileChar c then '_' else c)))).take 120).isEmpty)
    · simp [h6, videoFallbackName]
    · simp only [h6, if_false, Bool.false_eq_true]
      rw [List.length_take]
      exact Nat.min_le_left _ _

/-- Appending the default extension makes the mp4 suffix test succeed. -/
theorem hasExtSuffix_append_mp4 (x : List Char) :
    hasExtSuffix (x ++ defaultVideoExtension) ("mp4".data) = true := by
  unfold hasExtSuffix
  have harith : (x ++ defaultVideoExtension).length - ("mp4".data.length + 1) = x.length := by
    simp [defaultVideoExtension]
  rw [Bool.and_eq_true]
  constructor
  · rw [decide_eq_true_eq]
    simp [defaultVideoExtension]
  · rw [harith, List.drop_left]
    decide

/-- The extension finder on a name ending in the default extension. -/
theorem findVideoExt_append_mp4 (x : List Char) :
    findVideoExt (x ++ defaultVideoExtension) = some ("mp4".data) := by
  unfold findVideoExt videoExts
  exact List.find?_cons_of_pos _ (hasExtSuffix_append_mp4 x)

/-- Stripping the extension just appended returns the stem. -/
theorem dropVideoExt_append_mp4 (x : List Char) :
    dropVideoExt (x ++ defaultVideoExtension) = x := by
  unfold dropVideoExt
  rw [findVideoExt_append_mp4]
  have harith : (x ++ defaultVideoExtension).length - ("mp4".data.length + 1) = x.length := by
    simp [defaultVideoExtension]
  show List.take ((x ++ defaultVideoExtension).length - ("mp4".data.length + 1))
      (x ++ defaultVideoExtension) = x
  rw [harith, List.take_left]

/-- Claim C10: refuted as stated.  formatFileName strips only one trailing
video-container extension before appending, so on the input a.mp4.mp4 the
returned name still ends in two stacked extensions: after removing one
trailing extension from the result a video-container extension remains. -/
theorem formatFileName_stacked_extension :
    formatFileName ("a.mp4.mp4".data) = "a.mp4.mp4".data ∧
    hasVideoExt (dropVideoExt (formatFileName ("a.mp4.mp4".data))) = true := by
  refine ⟨?_, ?_⟩ <;> decide

/-- Claim C10 (amended): sanitizeFileName always returns a non-empty name
of at most 120 characters with no forbidden characters and no whitespace
(also for the empty string and for non-string input, modelled by
sanitizeFileNameJs none); and formatFileName appends exactly the default
extension to the once-stripped sanitised name, so whenever the sanitised
title does not itself end in stacked extensions the result carries exactly
one trailing video-container extension, never doubled. -/
theorem sanitize_and_format_names (o : Option (List Char)) (t : List Char)
    (h : hasVideoExt (dropVideoExt (sanitizeFileName t)) = false) :
    (sanitizeFileNameJs o ≠ [] ∧ (sanitizeFileNameJs o).length ≤ 120 ∧
      ∀ c ∈ sanitizeFileNameJs o, isForbiddenFileChar c = false ∧ isJsSpace c = false) ∧
    (formatFileName t = dropVideoExt (sanitizeFileName t) ++ defaultVideoExtension ∧
      hasVideoExt (formatFileName t) = true ∧
      hasVideoExt (dropVideoExt (formatFileName t)) = false) := by
  constructor
  · cases o with
    | none =>
      refine ⟨by decide, by decide, ?_⟩
      intro c hc
      simp only [sanitizeFileNameJs, videoFallbackName] at hc
      fin_cases hc <;> decide
    | some t2 =>
      exact ⟨sanitizeFileName_ne_nil t2, sanitizeFileName_length_le t2, sanitizeFileName_chars t2⟩
  · refine ⟨rfl, ?_, ?_⟩
    · unfold formatFileName formatFileNameWith hasVideoExt
      rw [findVideoExt_append_mp4]
      rfl
    · unfold formatFileName formatFileNameWith
      rw [dropVideoExt_append_mp4]
      exact h

/-- Closed instance of the amended claim at a concrete title. -/
theorem sanitize_and_format_names_holds :
    hasVideoExt (dropVideoExt (sanitizeFileName ("clip".data))) = false ∧
    ((sanitizeFileNameJs none ≠ [] ∧ (sanitizeFileNameJs none).length ≤ 120 ∧
      ∀ c ∈ sanitizeFileNameJs none, isForbiddenFileChar c = false ∧ isJsSpace c = false) ∧
    (formatFileName ("clip".data) = dropVideoExt (sanitizeFileName ("clip".data)) ++ defaultVideoExtension ∧
      hasVideoExt (formatFileName ("clip".data)) = true ∧
      hasVideoExt (dropVideoExt (formatFileName ("clip".data))) = false)) :=
  ⟨by decide, sanitize_and_format_names none ("clip".data) (by decide)⟩

/-- Erasing a freshly appended path restores the directory state. -/
theorem erase_append_self (fs : List String) (p : String) (h : p ∉ fs) :
    (fs ++ [p]).erase p = fs := by
  rw [List.erase_append_right _ h]
  simp

/-- Claim C7: a zero-byte download fails with the empty-file kind before
any file is written, and an oversized download (beyond MAX_FILE_SIZE)
fails with the oversized kind after the partial file is deleted; in both
cases the staging directory is unchanged when the error propagates. -/
theorem empty_and_oversized_download (tr : Transport) (anchor : Option Nat) (pre : String)
    (fs : FsState) (m : TgMessage) (len : Nat)
    (hLoc : locateVideoMessage tr anchor = .ok m)
    (hLen : tr.mediaResult m.id = .ok len)
    (hFresh : (pre ++ String.mk (extnameOrMp4 (originalNameOf m))) ∉ fs) :
    (len = 0 → downloadTelegramVideoToTemp tr anchor pre fs =
      (.error [Tok.telegramDownloadError, Tok.telegramDownloadFailed], fs)) ∧
    (MAX_FILE_SIZE < len → downloadTelegramVideoToTemp tr anchor pre fs =
      (.error [Tok.telegramDownloadError, Tok.fileTooLarge], fs)) := by
  constructor
  · intro h0
    subst h0
    have hbody : telegramDownloadBody tr anchor pre fs = (.error [Tok.telegramDownloadFailed], fs) := by
      unfold telegramDownloadBody
      rw [hLoc]
      simp [hLen]
    unfold downloadTelegramVideoToTemp
    rw [hbody]
    simp [hasTok]
  · intro hbig
    have h0 : (len == 0) = false := by
      rw [beq_eq_false_iff_ne]
      intro h
      subst h
      exact absurd hbig (by decide)
    have hW : fsWrite fs (pre ++ String.mk (extnameOrMp4 (originalNameOf m))) =
        fs ++ [pre ++ String.mk (extnameOrMp4 (originalNameOf m))] := by
      unfold fsWrite
      rw [if_neg hFresh]
    have hbody : telegramDownloadBody tr anchor pre fs = (.error [Tok.fileTooLarge], fs) := by
      unfold telegramDownloadBody
      rw [hLoc]
      simp [hLen, h0, hbig, hW, erase_append_self _ _ hFresh]
    unfold downloadTelegramVideoToTemp
    rw [hbody]
    simp [hasTok]

/-- Closed instance of the download validation claim: a chat whose media
fetch yields an empty buffer. -/
theorem empty_and_oversized_download_holds :
    locateVideoMessage trEmptyMedia none = .ok ⟨6, some 200, some ⟨false⟩, none⟩ ∧
    trEmptyMedia.mediaResult 6 = .ok 0 ∧
    (("p_" ++ String.mk (extnameOrMp4 (originalNameOf ⟨6, some 200, some ⟨false⟩, none⟩))) ∉ ([] : FsState)) ∧
    ((0 = 0 → downloadTelegramVideoToTemp trEmptyMedia none ("p_") [] =
        (.error [Tok.telegramDownloadError, Tok.telegramDownloadFailed], [])) ∧
     (MAX_FILE_SIZE < 0 → downloadTelegramVideoToTemp trEmptyMedia none ("p_") [] =
        (.error [Tok.telegramDownloadError, Tok.fileTooLarge], []))) :=
  ⟨by decide, by decide, by decide,
   empty_and_oversized_download trEmptyMedia none ("p_") [] ⟨6, some 200, some ⟨false⟩, none⟩ 0
     (by decide) (by decide) (by decide)⟩

/-- Filesystem behaviour of the download body under a fresh temp name:
failure leaves the staging directory unchanged; success adds exactly the
staged file, which erasing removes again. -/
theorem telegramDownloadBody_fs (tr : Transport) (anchor : Option Nat) (pre : String) (fs : FsState)
    (hFresh : freshFor tr anchor pre fs = true) :
    (∀ e fs1, telegramDownloadBody tr anchor pre fs = (.error e, fs1) → fs1 = fs) ∧
    (∀ r fs1, telegramDownloadBody tr anchor pre fs = (.ok r, fs1) →
      fs1.erase r.tempPath = fs) := by
  unfold freshFor plannedTempPath at hFresh
  constructor
  · intro e fs1 heq
    unfold telegramDownloadBody at heq
    repeat' split at heq
    all_goals simp_all [fsWrite, erase_append_self]
  · intro r fs1 heq
    unfold telegramDownloadBody at heq
    repeat' split at heq
    all_goals simp_all [fsWrite, erase_append_self]
    rcases heq with ⟨h1, h2⟩
    rw [← h2, ← h1]
    exact erase_append_self _ _ hFresh

/-- Filesystem behaviour of the downloader (body plus outer catch). -/
theorem download_fs_cases (tr : Transport) (anchor : Option Nat) (pre : String) (fs : FsState)
    (hFresh : freshFor tr anchor pre fs = true) :
    (∀ e fs1, downloadTelegramVideoToTemp tr anchor pre fs = (.error e, fs1) → fs1 = fs) ∧
    (∀ r fs1, downloadTelegramVideoToTemp tr anchor pre fs = (.ok r, fs1) →
      fs1.erase r.tempPath = fs) := by
  have hbody := telegramDownloadBody_fs tr anchor pre fs hFresh
  constructor
  · intro e fs1 heq
    unfold downloadTelegramVideoToTemp at heq
    split at heq
    · exact absurd heq (by simp)
    · rename_i x0 e0 fs2 heqB
      have h2 := congrArg Prod.snd heq
      simp only at h2
      rw [← h2]
      exact hbody.1 e0 fs2 heqB
  · intro r fs1 heq
    unfold downloadTelegramVideoToTemp at heq
    split at heq
    · rename_i x0 r0 fs2 heqB
      have h1 := congrArg Prod.fst heq
      have h2 := congrArg Prod.snd heq
      simp only at h1 h2
      injection h1 with hr
      rw [← h2, ← hr]
      exact hbody.2 r0 fs2 heqB
    · exact absurd heq (by simp)
/-- Claim C2: the cleanup invariant.  Whenever the generated temp name is
fresh (as the timestamp-plus-random naming scheme guarantees), the staging
directory is exactly restored by the time downloadAndUploadVideoToDrive
returns, on success and on every failure path: the staged file, if one was
created, is always deleted before the call returns. -/
theorem staging_cleanup (env : OrchEnv) (opts : OrchOptions) (fs : FsState)
    (hFresh : freshFor env.transport opts.telegramMessageId env.tmpPrefix fs = true) :
    (downloadAndUploadVideoToDrive env opts fs).fs = fs := by
  have hd := download_fs_cases env.transport opts.telegramMessageId env.tmpPrefix fs hFresh
  unfold downloadAndUploadVideoToDrive
  repeat' split
  all_goals simp_all
  all_goals (split <;> rfl)

/-- Closed instance of the cleanup invariant on a successful run from an
empty staging directory. -/
theorem staging_cleanup_holds :
    freshFor envSuccess.transport optsW.telegramMessageId envSuccess.tmpPrefix [] = true ∧
    (downloadAndUploadVideoToDrive envSuccess optsW []).fs = [] :=
  ⟨by decide, staging_cleanup envSuccess optsW [] (by decide)⟩

/-- Claim C4: downloadAndUploadVideoToDrive always returns a result value
(the embedding is a total function) in which success true comes with the
Drive asset id and file name and no error, and success false comes with an
error message and no asset fields: never both meaningfully populated. -/
theorem result_shape (env : OrchEnv) (opts : OrchOptions) (fs : FsState) :
    ((downloadAndUploadVideoToDrive env opts fs).result.success = true →
      (downloadAndUploadVideoToDrive env opts fs).result.error = none ∧
      ((downloadAndUploadVideoToDrive env opts fs).result.driveFileId).isSome = true ∧
      ((downloadAndUploadVideoToDrive env opts fs).result.fileName).isSome = true) ∧
    ((downloadAndUploadVideoToDrive env opts fs).result.success = false →
      ((downloadAndUploadVideoToDrive env opts fs).result.error).isSome = true ∧
      (downloadAndUploadVideoToDrive env opts fs).result.driveFileId = none ∧
      (downloadAndUploadVideoToDrive env opts fs).result.driveWebViewLink = none ∧
      (downloadAndUploadVideoToDrive env opts fs).result.driveWebContentLink = none ∧
      (downloadAndUploadVideoToDrive env opts fs).result.fileName = none) := by
  unfold downloadAndUploadVideoToDrive
  repeat' split
  all_goals simp [mkFailure, mkSuccessResult]
  all_goals (split <;> simp)

/-- Closed instance of the result-shape claim on a successful run. -/
theorem result_shape_holds :
    ((downloadAndUploadVideoToDrive envSuccess optsW []).result.success = true →
      (downloadAndUploadVideoToDrive envSuccess optsW []).result.error = none ∧
      ((downloadAndUploadVideoToDrive envSuccess optsW []).result.driveFileId).isSome = true ∧
      ((downloadAndUploadVideoToDrive envSuccess optsW []).result.fileName).isSome = true) ∧
    ((downloadAndUploadVideoToDrive envSuccess optsW []).result.success = false →
      ((downloadAndUploadVideoToDrive envSuccess optsW []).result.error).isSome = true ∧
      (downloadAndUploadVideoToDrive envSuccess optsW []).result.driveFileId = none ∧
      (downloadAndUploadVideoToDrive envSuccess optsW []).result.driveWebViewLink = none ∧
      (downloadAndUploadVideoToDrive envSuccess optsW []).result.driveWebContentLink = none ∧
      (downloadAndUploadVideoToDrive envSuccess optsW []).result.fileName = none) :=
  result_shape envSuccess optsW []

/-- Claim C8: when the channel has no (trimmed, non-empty) Drive folder id
and no process-wide default folder is configured, the run fails
immediately with the no-destination-folder kind: the returned value is the
failure result, the staging directory is untouched, and the trace is
empty: in particular no chat-transport session is opened. -/
theorem no_folder_immediate_failure (env : OrchEnv) (opts : OrchOptions) (fs : FsState)
    (ch : ChannelDoc)
    (hS : sessionPresent env = true) (hC : chatPresent env = true)
    (hF : env.firestoreAvailable = true) (hCh : env.channel = some ch)
    (h1 : trimNonempty ch.googleDriveFolderId = none)
    (h2 : trimNonempty env.defaultParent = none) :
    downloadAndUploadVideoToDrive env opts fs =
      ⟨mkFailure [Tok.noDestinationFolder], fs, []⟩ := by
  have hRes : resolvedFolder env ch = none := by
    unfold resolvedFolder
    rw [h1, h2]
  unfold downloadAndUploadVideoToDrive
  simp [hS, hC, hF, hCh, hRes]

/-- Closed instance of the no-destination-folder claim. -/
theorem no_folder_immediate_failure_holds :
    sessionPresent envNoFolder = true ∧ chatPresent envNoFolder = true ∧
    envNoFolder.firestoreAvailable = true ∧
    envNoFolder.channel = some ⟨some ("Chan"), none⟩ ∧
    trimNonempty (⟨some ("Chan"), none⟩ : ChannelDoc).googleDriveFolderId = none ∧
    trimNonempty envNoFolder.defaultParent = none ∧
    downloadAndUploadVideoToDrive envNoFolder optsW [] =
      ⟨mkFailure [Tok.noDestinationFolder], [], []⟩ :=
  ⟨by decide, by decide, rfl, rfl, rfl, rfl,
   no_folder_immediate_failure envNoFolder optsW [] ⟨some ("Chan"), none⟩
     (by decide) (by decide) rfl rfl rfl rfl⟩

/-- Claim C9: with no stored delegated token, the service-account upload
runs inside the delegated-path try block; when it throws, the catch-all
invokes the service-account upload once more, and when that also fails the
returned error is the combined message whose OAuth slot holds the first
service-account failure.  uploadFileToDrive is called exactly twice. -/
theorem no_token_double_service_failure (env : OrchEnv) (opts : OrchOptions) (fs : FsState)
    (ch : ChannelDoc) (folderId : String) (r : DlOk) (fs1 : FsState) (e1 e2 : ErrMsg)
    (hS : sessionPresent env = true) (hC : chatPresent env = true)
    (hF : env.firestoreAvailable = true) (hCh : env.channel = some ch)
    (hFold : resolvedFolder env ch = some folderId) (hConn : env.connectErr = none)
    (hDl : downloadTelegramVideoToTemp env.transport opts.telegramMessageId env.tmpPrefix fs =
      (.ok r, fs1))
    (hTok : env.tokensResult = .ok none)
    (h1 : env.serviceUploadResults 0 = .error e1)
    (h2 : env.serviceUploadResults 1 = .error e2) :
    (downloadAndUploadVideoToDrive env opts fs).trace.filter isServiceEv =
      [.uploadService (driveNameOf env ch opts) folderId,
       .uploadService (driveNameOf env ch opts) folderId] ∧
    (downloadAndUploadVideoToDrive env opts fs).result =
      mkFailure (mkCombinedUploadError e1 e2) := by
  have hUp : uploadPhase env opts.userId (driveNameOf env ch opts) folderId =
      (.error (mkCombinedUploadError e1 e2),
       [.getTokens, .uploadService (driveNameOf env ch opts) folderId,
        .uploadService (driveNameOf env ch opts) folderId]) := by
    unfold uploadPhase oauthTryBlock
    simp [hTok, h1, h2, isServiceEv]
  unfold downloadAndUploadVideoToDrive
  simp [hS, hC, hF, hCh, hFold, hConn, hDl, hUp, isServiceEv]

/-- Closed instance of the double-service-call claim. -/
theorem no_token_double_service_failure_holds :
    downloadTelegramVideoToTemp envNoTokenDoubleFail.transport optsW.telegramMessageId
      envNoTokenDoubleFail.tmpPrefix [] = (.ok ⟨"tmp_.mp4", "video_6.mp4".data, 6⟩, ["tmp_.mp4"]) ∧
    envNoTokenDoubleFail.tokensResult = .ok none ∧
    envNoTokenDoubleFail.serviceUploadResults 0 = .error [Tok.text ("svcFirst")] ∧
    envNoTokenDoubleFail.serviceUploadResults 1 = .error [Tok.text ("svcSecond")] ∧
    (downloadAndUploadVideoToDrive envNoTokenDoubleFail optsW []).trace.filter isServiceEv =
      [.uploadService (driveNameOf envNoTokenDoubleFail chOk optsW) ("folder"),
       .uploadService (driveNameOf envNoTokenDoubleFail chOk optsW) ("folder")] ∧
    (downloadAndUploadVideoToDrive envNoTokenDoubleFail optsW []).result =
      mkFailure (mkCombinedUploadError [Tok.text ("svcFirst")] [Tok.text ("svcSecond")]) := by
  refine ⟨by decide, rfl, rfl, rfl, ?_⟩
  exact no_token_double_service_failure envNoTokenDoubleFail optsW [] chOk ("folder")
    ⟨"tmp_.mp4", "video_6.mp4".data, 6⟩ ["tmp_.mp4"]
    [Tok.text ("svcFirst")] [Tok.text ("svcSecond")]
    (by decide) (by decide) rfl rfl (by decide) rfl (by decide) rfl rfl rfl

/-- When the try block of the upload step fails after an OAuth upload
attempt, it made no service-account call. -/
theorem oauthTryBlock_attempt_no_service (env : OrchEnv) (uid fn fid : String) (e1 : ErrMsg)
    (evs : List Ev) (tok fn2 fid2 : String)
    (h : oauthTryBlock env uid fn fid = (.error e1, evs))
    (hm : Ev.uploadOAuth tok fn2 fid2 ∈ evs) :
    evs.filter isServiceEv = [] := by
  unfold oauthTryBlock at h
  repeat' split at h
  all_goals
    (have h2 := congrArg Prod.snd h
     simp only at h2
     subst h2
     try simp [isServiceEv]
     try simp at hm)

/-- Claim C3: when the delegated-token (OAuth) upload attempt throws, the
orchestrator makes exactly one further upload call, with the service
credential; and when that also fails, the returned error embeds both
underlying failure messages. -/
theorem oauth_fallback_names_both (env : OrchEnv) (opts : OrchOptions) (fs : FsState)
    (ch : ChannelDoc) (folderId : String) (r : DlOk) (fs1 : FsState)
    (e1 e2 : ErrMsg) (evs : List Ev) (tok : String)
    (hS : sessionPresent env = true) (hC : chatPresent env = true)
    (hF : env.firestoreAvailable = true) (hCh : env.channel = some ch)
    (hFold : resolvedFolder env ch = some folderId) (hConn : env.connectErr = none)
    (hDl : downloadTelegramVideoToTemp env.transport opts.telegramMessageId env.tmpPrefix fs =
      (.ok r, fs1))
    (hOauth : oauthTryBlock env opts.userId (driveNameOf env ch opts) folderId = (.error e1, evs))
    (hAtt : Ev.uploadOAuth tok (driveNameOf env ch opts) folderId ∈ evs)
    (hSvc : env.serviceUploadResults ((evs.filter isServiceEv).length) = .error e2) :
    ((downloadAndUploadVideoToDrive env opts fs).trace.filter isServiceEv).length = 1 ∧
    (downloadAndUploadVideoToDrive env opts fs).result.success = false ∧
    ∃ p q s, (downloadAndUploadVideoToDrive env opts fs).result.error =
      some (p ++ e1 ++ q ++ e2 ++ s) := by
  have hNoSvc : evs.filter isServiceEv = [] :=
    oauthTryBlock_attempt_no_service env opts.userId (driveNameOf env ch opts) folderId e1 evs tok
      (driveNameOf env ch opts) folderId hOauth hAtt
  have hUp : uploadPhase env opts.userId (driveNameOf env ch opts) folderId =
      (.error (mkCombinedUploadError e1 e2),
       evs ++ [.uploadService (driveNameOf env ch opts) folderId]) := by
    unfold uploadPhase
    simp only [hOauth, hSvc]
  refine ⟨?_, ?_, ?_⟩
  · unfold downloadAndUploadVideoToDrive
    simp [hS, hC, hF, hCh, hFold, hConn, hDl, hUp, List.filter_append, hNoSvc, isServiceEv]
  · unfold downloadAndUploadVideoToDrive
    simp [hS, hC, hF, hCh, hFold, hConn, hDl, hUp, mkFailure]
  · refine ⟨[Tok.driveUploadFailed, Tok.oauthErrorLabel], [Tok.serviceErrorLabel],
      [Tok.oauthAdvice], ?_⟩
    unfold downloadAndUploadVideoToDrive
    simp [hS, hC, hF, hCh, hFold, hConn, hDl, hUp, mkFailure, mkCombinedUploadError]

/-- Closed instance of the credential-fallback claim. -/
theorem oauth_fallback_names_both_holds :
    oauthTryBlock envBothUploadsFail optsW.userId
        (driveNameOf envBothUploadsFail chOk optsW) ("folder") =
      (.error [Tok.text ("oauthBoom")],
       [.getTokens, .uploadOAuth ("tokA") (driveNameOf envBothUploadsFail chOk optsW) ("folder")]) ∧
    ((downloadAndUploadVideoToDrive envBothUploadsFail optsW []).trace.filter isServiceEv).length = 1 ∧
    (downloadAndUploadVideoToDrive envBothUploadsFail optsW []).result.success = false ∧
    ∃ p q s, (downloadAndUploadVideoToDrive envBothUploadsFail optsW []).result.error =
      some (p ++ [Tok.text ("oauthBoom")] ++ q ++ [Tok.text ("svcBoom")] ++ s) := by
  refine ⟨by decide, ?_⟩
  exact oauth_fallback_names_both envBothUploadsFail optsW [] chOk ("folder")
    ⟨"tmp_.mp4", "video_6.mp4".data, 6⟩ ["tmp_.mp4"]
    [Tok.text ("oauthBoom")] [Tok.text ("svcBoom")]
    [.getTokens, .uploadOAuth ("tokA") (driveNameOf envBothUploadsFail chOk optsW) ("folder")]
    ("tokA")
    (by decide) (by decide) rfl rfl (by decide) rfl (by decide) (by decide) (by decide) rfl

/-- Claim C6: with a stored delegated token that is expired and a refresh
token present, the orchestrator refreshes, persists the refreshed token
and its expiry through updateUserAccessToken, and then makes the OAuth
upload attempt with the refreshed token: the trace contains the refresh,
the persist of the new token, and the upload with that same token, in
that order, whatever the upload outcome. -/
theorem expired_token_refreshed (env : OrchEnv) (opts : OrchOptions) (fs : FsState)
    (ch : ChannelDoc) (folderId : String) (r : DlOk) (fs1 : FsState)
    (tk : OAuthTokens) (a : String) (creds : RefreshCreds)
    (hS : sessionPresent env = true) (hC : chatPresent env = true)
    (hF : env.firestoreAvailable = true) (hCh : env.channel = some ch)
    (hFold : resolvedFolder env ch = some folderId) (hConn : env.connectErr = none)
    (hDl : downloadTelegramVideoToTemp env.transport opts.telegramMessageId env.tmpPrefix fs =
      (.ok r, fs1))
    (hTok : env.tokensResult = .ok (some tk))
    (hA : tk.accessToken = some a) (hAne : (a == "") = false)
    (hRef : refreshNeeded tk env.now = true)
    (hCreds : env.refreshResult = .ok creds) :
    ∃ p q, (downloadAndUploadVideoToDrive env opts fs).trace =
      p ++ [Ev.refreshCall,
            Ev.updateAccessToken opts.userId creds.newAccessToken (refreshedExpiry creds env.now),
            Ev.uploadOAuth creds.newAccessToken (driveNameOf env ch opts) folderId] ++ q := by
  have hTry : oauthTryBlock env opts.userId (driveNameOf env ch opts) folderId =
      (env.oauthUploadResult creds.newAccessToken,
       [.getTokens, .refreshCall,
        .updateAccessToken opts.userId creds.newAccessToken (refreshedExpiry creds env.now),
        .uploadOAuth creds.newAccessToken (driveNameOf env ch opts) folderId]) := by
    unfold oauthTryBlock
    simp [hTok, hA, hAne, hRef, hCreds]
  cases hUpRes : env.oauthUploadResult creds.newAccessToken with
  | ok d =>
    have hUp : uploadPhase env opts.userId (driveNameOf env ch opts) folderId =
        (.ok d,
         [.getTokens, .refreshCall,
          .updateAccessToken opts.userId creds.newAccessToken (refreshedExpiry creds env.now),
          .uploadOAuth creds.newAccessToken (driveNameOf env ch opts) folderId]) := by
      unfold uploadPhase
      simp only [hTry, hUpRes]
    refine ⟨[Ev.connect, Ev.getTokens], [Ev.persist, Ev.disconnect], ?_⟩
    unfold downloadAndUploadVideoToDrive
    simp [hS, hC, hF, hCh, hFold, hConn, hDl, hUp]
  | error e1 =>
    cases hSvcRes : env.serviceUploadResults 0 with
    | ok d =>
      have hUp : uploadPhase env opts.userId (driveNameOf env ch opts) folderId =
          (.ok d,
           [.getTokens, .refreshCall,
            .updateAccessToken opts.userId creds.newAccessToken (refreshedExpiry creds env.now),
            .uploadOAuth creds.newAccessToken (driveNameOf env ch opts) folderId,
            .uploadService (driveNameOf env ch opts) folderId]) := by
        unfold uploadPhase
        simp [hTry, hUpRes, hSvcRes, isServiceEv]
      refine ⟨[Ev.connect, Ev.getTokens],
        [Ev.uploadService (driveNameOf env ch opts) folderId, Ev.persist, Ev.disconnect], ?_⟩
      unfold downloadAndUploadVideoToDrive
      simp [hS, hC, hF, hCh, hFold, hConn, hDl, hUp]
    | error e2 =>
      have hUp : uploadPhase env opts.userId (driveNameOf env ch opts) folderId =
          (.error (mkCombinedUploadError e1 e2),
           [.getTokens, .refreshCall,
            .updateAccessToken opts.userId creds.newAccessToken (refreshedExpiry creds env.now),
            .uploadOAuth creds.newAccessToken (driveNameOf env ch opts) folderId,
            .uploadService (driveNameOf env ch opts) folderId]) := by
        unfold uploadPhase
        simp [hTry, hUpRes, hSvcRes, isServiceEv]
      refine ⟨[Ev.connect, Ev.getTokens],
        [Ev.uploadService (driveNameOf env ch opts) folderId, Ev.disconnect], ?_⟩
      unfold downloadAndUploadVideoToDrive
      simp [hS, hC, hF, hCh, hFold, hConn, hDl, hUp]

/-- Closed instance of the refresh claim: an expired token (expiry 500,
clock 1000) with a refresh token, refreshed to newTok. -/
theorem expired_token_refreshed_holds :
    envRefresh.tokensResult = .ok (some ⟨some ("oldTok"), some ("refTok"), some 500⟩) ∧
    refreshNeeded ⟨some ("oldTok"), some ("refTok"), some 500⟩ envRefresh.now = true ∧
    envRefresh.refreshResult = .ok ⟨"newTok", some 9999⟩ ∧
    ∃ p q, (downloadAndUploadVideoToDrive envRefresh optsW []).trace =
      p ++ [Ev.refreshCall,
            Ev.updateAccessToken optsW.userId ("newTok")
              (refreshedExpiry ⟨"newTok", some 9999⟩ envRefresh.now),
            Ev.uploadOAuth ("newTok") (driveNameOf envRefresh chOk optsW) ("folder")] ++ q := by
  refine ⟨rfl, by decide, rfl, ?_⟩
  exact expired_token_refreshed envRefresh optsW [] chOk ("folder")
    ⟨"tmp_.mp4", "video_6.mp4".data, 6⟩ ["tmp_.mp4"]
    ⟨some ("oldTok"), some ("refTok"), some 500⟩ ("oldTok") ⟨"newTok", some 9999⟩
    (by decide) (by decide) rfl rfl (by decide) rfl (by decide) rfl rfl (by decide) (by decide) rfl

/-- Filtering a mapped list is mapping a filtered list. -/
theorem filter_of_map {α β : Type} (f : α → β) (Q : β → Bool) (l : List α) :
    (l.map f).filter Q = (l.filter (fun a => Q (f a))).map f := by
  induction l with
  | nil => rfl
  | cons a t ih =>
    by_cases h : Q (f a) = true
    · simp [h, ih]
    · simp only [List.map_cons, List.filter_cons]
      rw [if_neg h, if_neg h]
      exact ih

/-- A filter of length at most one containing x is exactly [x]. -/
theorem filter_singleton_of_mem {α : Type} {p : α → Bool} {l : List α} {x : α}
    (hlen : (l.filter p).length ≤ 1) (hm : x ∈ l.filter p) : l.filter p = [x] := by
  rcases hfl : l.filter p with _ | ⟨y, ys⟩
  · rw [hfl] at hm
    cases hm
  · rw [hfl] at hm hlen
    cases ys with
    | nil =>
      cases hm with
      | head => rfl
      | tail _ h => cases h
    | cons z zs => simp at hlen

/-- The empty live-task table is well formed. -/
theorem SchedInv_nil : SchedInv [] := by
  refine ⟨List.nodup_nil, ?_, ?_⟩
  · intro e h
    cases h
  · intro c s
    simp [pairEntries]

/-- Any filtering of the live-task table preserves well-formedness. -/
theorem SchedInv_filter (st : SchedState) (g : String × STask → Bool) (h : SchedInv st) :
    SchedInv (st.filter g) := by
  obtain ⟨hnd, hid, hcnt⟩ := h
  refine ⟨?_, ?_, ?_⟩
  · exact List.Nodup.sublist (List.Sublist.map _ (List.filter_sublist _)) hnd
  · intro e he
    exact hid e (List.mem_filter.mp he).1
  · intro c s
    refine le_trans ?_ (hcnt c s)
    exact List.Sublist.length_le (List.Sublist.filter _ (List.filter_sublist _))

/-- Mapping with a function that only rewrites elements failing P cannot
increase the number of elements satisfying P. -/
theorem length_filter_map_le {α : Type} (f : α → α) (P : α → Bool) (l : List α)
    (hf : ∀ e, P (f e) = true → f e = e) :
    ((l.map f).filter P).length ≤ (l.filter P).length := by
  induction l with
  | nil => simp
  | cons a t ih =>
    by_cases h : P (f a) = true
    · have ha : f a = a := hf a h
      have h2 : P a = true := by rw [← ha]; exact h
      simp only [List.map_cons, List.filter_cons, ha, h2, if_true, List.length_cons]
      exact Nat.succ_le_succ ih
    · have hfa : P (f a) = false := by revert h; cases P (f a) <;> simp
      rw [List.map_cons, List.filter_cons, if_neg (by simp [hfa])]
      by_cases hPa : P a = true
      · rw [List.filter_cons, if_pos (by simp [hPa])]
        exact le_trans ih (Nat.le_succ _)
      · have hPa2 : P a = false := by revert hPa; cases P a <;> simp
        rw [List.filter_cons, if_neg (by simp [hPa2])]
        exact ih

/-- Replacing the (unique) entry at key k by (k, v), when no entry of the
list satisfies P but (k, v) does, leaves exactly [(k, v)] satisfying P. -/
theorem filter_map_replace (k : String) (v : STask) (P : String × STask → Bool)
    (hv : P (k, v) = true) :
    ∀ st : SchedState, (st.map Prod.fst).Nodup → (∀ e ∈ st, P e = false) →
      st.any (fun e => e.1 == k) = true →
      (st.map (fun e => if e.1 == k then (k, v) else e)).filter P = [(k, v)]
  | [] => by
      intro _ _ hany
      simp at hany
  | e :: rest => by
      intro hnd hP hany
      cases hek : (e.1 == k) with
      | true =>
        have hkeq : e.1 = k := by simpa using hek
        have hknot : ∀ x ∈ rest, (x.1 == k) = false := by
          intro x hx
          have hne : e.1 ∉ rest.map Prod.fst := by
            rw [List.map_cons] at hnd
            exact (List.nodup_cons.mp hnd).1
          have : x.1 ≠ k := by
            intro hxk
            exact hne (by rw [hkeq, ← hxk]; exact List.mem_map_of_mem _ hx)
          simpa using this
        have htail : (rest.map (fun e => if e.1 == k then (k, v) else e)).filter P = [] := by
          rw [List.filter_eq_nil_iff]
          intro x hx
          rcases List.mem_map.mp hx with ⟨y, hy, rfl⟩
          rw [if_neg (by simp [hknot y hy])]
          simp [hP y (List.mem_cons_of_mem _ hy)]
        simp only [List.map_cons, hek, if_true, List.filter_cons, hv, htail]
      | false =>
        have hPe : P e = false := hP e (List.mem_cons_self e rest)
        have hany2 : rest.any (fun x => x.1 == k) = true := by
          revert hany
          simp [List.any_cons, hek]
        have hnd2 : (rest.map Prod.fst).Nodup := by
          rw [List.map_cons] at hnd
          exact (List.nodup_cons.mp hnd).2
        have hP2 : ∀ x ∈ rest, P x = false := fun x hx => hP x (List.mem_cons_of_mem _ hx)
        have ih := filter_map_replace k v P hv rest hnd2 hP2 hany2
        simp only [List.map_cons, hek, Bool.false_eq_true, if_false, List.filter_cons, hPe]
        exact ih

/-- Map.set of a matching task into a table with no entry of the pair
leaves exactly that entry for the pair. -/
theorem pairEntries_mapSet_matches (st : SchedState) (k : String) (v : STask) (c s : String)
    (hnd : (st.map Prod.fst).Nodup)
    (hempty : pairEntries st c s = [])
    (hv : matchesPair v c s = true) :
    pairEntries (mapSet st k v) c s = [(k, v)] := by
  have hP : ∀ e ∈ st, matchesPair e.2 c s = false := by
    intro e he
    by_cases hPe : matchesPair e.2 c s = true
    · exfalso
      have hmem : e ∈ st.filter (fun e => matchesPair e.2 c s) := List.mem_filter.mpr ⟨he, hPe⟩
      rw [show st.filter (fun e => matchesPair e.2 c s) = [] from hempty] at hmem
      cases hmem
    · revert hPe
      cases matchesPair e.2 c s <;> simp
  unfold mapSet pairEntries
  by_cases hany : st.any (fun e => e.1 == k) = true
  · rw [if_pos hany]
    exact filter_map_replace k v _ (by simpa using hv) st hnd hP hany
  · rw [if_neg hany, List.filter_append]
    rw [show st.filter (fun e => matchesPair e.2 c s) = [] from hempty]
    simp [hv]

/-- Map.set of a task of a different pair does not increase the number of
live tasks of a pair. -/
theorem pairEntries_mapSet_other (st : SchedState) (k : String) (v : STask) (c s : String)
    (hv : matchesPair v c s = false) :
    (pairEntries (mapSet st k v) c s).length ≤ (pairEntries st c s).length := by
  unfold mapSet pairEntries
  by_cases hany : st.any (fun e => e.1 == k) = true
  · rw [if_pos hany]
    apply length_filter_map_le
    intro e hPe
    by_cases hek : (e.1 == k) = true
    · rw [if_pos hek] at hPe
      simp only at hPe
      rw [hPe] at hv
      cases hv
    · rw [if_neg hek]
  · rw [if_neg hany, List.filter_append]
    simp [hv]

/-- Map.set preserves distinct keys. -/
theorem mapSet_nodup (st : SchedState) (k : String) (v : STask)
    (hnd : (st.map Prod.fst).Nodup) :
    ((mapSet st k v).map Prod.fst).Nodup := by
  unfold mapSet
  by_cases hany : st.any (fun e => e.1 == k) = true
  · rw [if_pos hany]
    have hsame : (st.map (fun e => if e.1 == k then (k, v) else e)).map Prod.fst =
        st.map Prod.fst := by
      rw [List.map_map]
      apply List.map_congr_left
      intro e _
      by_cases hek : (e.1 == k) = true
      · have : e.1 = k := by simpa using hek
        simp [hek, this]
      · have hne : ¬(e.1 = k) := by simpa using hek
        simp [hek, hne]
    rw [hsame]
    exact hnd
  · rw [if_neg hany, List.map_append]
    have hk : k ∉ st.map Prod.fst := by
      intro hkin
      rcases List.mem_map.mp hkin with ⟨e, he, hfe⟩
      exact hany (List.any_eq_true.mpr ⟨e, he, by simp [hfe]⟩)
    rw [List.nodup_append]
    refine ⟨hnd, by simp, ?_⟩
    intro a ha hmem
    simp at hmem
    subst hmem
    exact hk ha

/-- Map.set preserves the id-equals-key coherence when v.id = k. -/
theorem mapSet_id (st : SchedState) (k : String) (v : STask)
    (hid : ∀ e ∈ st, e.2.id = e.1) (hvk : v.id = k) :
    ∀ e ∈ mapSet st k v, e.2.id = e.1 := by
  unfold mapSet
  by_cases hany : st.any (fun e => e.1 == k) = true
  · rw [if_pos hany]
    intro e he
    rcases List.mem_map.mp he with ⟨y, hy, rfl⟩
    by_cases hek : (y.1 == k) = true
    · simp [hek, hvk]
    · simp [hek]
      exact hid y hy
  · rw [if_neg hany]
    intro e he
    rcases List.mem_append.mp he with h | h
    · exact hid e h
    · simp at h
      subst h
      exact hvk

/-- Filtering cannot increase the number of live tasks of a pair. -/
theorem pairEntries_filter_le (st : SchedState) (g : String × STask → Bool) (c s : String) :
    (pairEntries (st.filter g) c s).length ≤ (pairEntries st c s).length :=
  List.Sublist.length_le (List.Sublist.filter _ (List.filter_sublist _))

/-- After the cancel-existing step of scheduleAutoDownload, no live task
of the pair remains. -/
theorem pairEntries_after_existing_cancel (st : SchedState) (ch sch : String)
    (hInv : SchedInv st) :
    pairEntries
      (match (st.map Prod.snd).find? (fun t => matchesPair t ch sch) with
       | some t0 => mapDelete st t0.id
       | none => st) ch sch = [] := by
  obtain ⟨hnd, hid, hcnt⟩ := hInv
  cases hf : (st.map Prod.snd).find? (fun t => matchesPair t ch sch) with
  | none =>
    have hnone := List.find?_eq_none.mp hf
    unfold pairEntries
    rw [List.filter_eq_nil_iff]
    intro e he
    simpa using hnone e.2 (List.mem_map_of_mem _ he)
  | some t0 =>
    have hmem : t0 ∈ st.map Prod.snd := List.mem_of_find?_eq_some hf
    have hmatch : matchesPair t0 ch sch = true := by
      have h := List.find?_some hf
      simpa using h
    rcases List.mem_map.mp hmem with ⟨e0, he0, he0t⟩
    have hkey : e0.1 = t0.id := by
      rw [← he0t]
      exact (hid e0 he0).symm
    have hsingle : st.filter (fun e => matchesPair e.2 ch sch) = [e0] :=
      filter_singleton_of_mem (hcnt ch sch)
        (List.mem_filter.mpr ⟨he0, by rw [he0t]; exact hmatch⟩)
    unfold pairEntries mapDelete
    rw [List.filter_filter, List.filter_eq_nil_iff]
    intro e he
    by_cases hPe : matchesPair e.2 ch sch = true
    · have hmem2 : e ∈ st.filter (fun e => matchesPair e.2 ch sch) :=
        List.mem_filter.mpr ⟨he, hPe⟩
      rw [hsingle] at hmem2
      have he0e : e = e0 := by simpa using hmem2
      subst he0e
      simp [hPe, hkey]
    · simp [hPe]

/-- The scheduling step leaves exactly one live task of the scheduled
pair: the newly created one, with the new due time. -/
theorem schedule_pairEntries (st : SchedState) (ch sch uid : String) (msg d now : Nat)
    (hInv : SchedInv st) :
    pairEntries (scheduleAutoDownload st ch sch uid msg d now).2 ch sch =
      [(ch ++ "_" ++ sch ++ "_" ++ toString now,
        ⟨ch ++ "_" ++ sch ++ "_" ++ toString now, ch, sch, uid, now + d * 60 * 1000, some msg⟩)] := by
  have hnd1 : ((match (st.map Prod.snd).find? (fun t => matchesPair t ch sch) with
      | some t0 => mapDelete st t0.id
      | none => st).map Prod.fst).Nodup := by
    cases hf : (st.map Prod.snd).find? (fun t => matchesPair t ch sch) with
    | none => exact hInv.1
    | some t0 => exact (SchedInv_filter st _ hInv).1
  simp only [scheduleAutoDownload]
  exact pairEntries_mapSet_matches _ _ _ ch sch hnd1
    (pairEntries_after_existing_cancel st ch sch hInv) (by simp [matchesPair])

/-- scheduleAutoDownload preserves well-formedness of the table. -/
theorem schedule_SchedInv (st : SchedState) (ch sch uid : String) (msg d now : Nat)
    (hInv : SchedInv st) :
    SchedInv (scheduleAutoDownload st ch sch uid msg d now).2 := by
  have hInv1 : SchedInv (match (st.map Prod.snd).find? (fun t => matchesPair t ch sch) with
      | some t0 => mapDelete st t0.id
      | none => st) := by
    cases hf : (st.map Prod.snd).find? (fun t => matchesPair t ch sch) with
    | none => exact hInv
    | some t0 => exact SchedInv_filter st _ hInv
  have hst1le : ∀ c s,
      (pairEntries (match (st.map Prod.snd).find? (fun t => matchesPair t ch sch) with
        | some t0 => mapDelete st t0.id
        | none => st) c s).length ≤ (pairEntries st c s).length := by
    intro c s
    cases hf : (st.map Prod.snd).find? (fun t => matchesPair t ch sch) with
    | none => exact le_refl _
    | some t0 => exact pairEntries_filter_le st _ c s
  refine ⟨?_, ?_, ?_⟩
  · simp only [scheduleAutoDownload]
    exact mapSet_nodup _ _ _ hInv1.1
  · simp only [scheduleAutoDownload]
    exact mapSet_id _ _ _ hInv1.2.1 rfl
  · intro c s
    by_cases hm : matchesPair
        (⟨ch ++ "_" ++ sch ++ "_" ++ toString now, ch, sch, uid,
          now + d * 60 * 1000, some msg⟩ : STask) c s = true
    · have hcs : ch = c ∧ sch = s := by simpa [matchesPair] using hm
      obtain ⟨hc, hs⟩ := hcs
      subst hc
      subst hs
      rw [schedule_pairEntries st ch sch uid msg d now hInv]
      simp
    · have hm2 : matchesPair
          (⟨ch ++ "_" ++ sch ++ "_" ++ toString now, ch, sch, uid,
            now + d * 60 * 1000, some msg⟩ : STask) c s = false := by
        revert hm
        cases matchesPair (⟨ch ++ "_" ++ sch ++ "_" ++ toString now, ch, sch, uid,
          now + d * 60 * 1000, some msg⟩ : STask) c s <;> simp
      simp only [scheduleAutoDownload]
      exact le_trans (pairEntries_mapSet_other _ _ _ c s hm2)
        (le_trans (hst1le c s) (hInv.2.2 c s))

/-- Every exposed scheduler call preserves well-formedness. -/
theorem applySchedOp_SchedInv (st : SchedState) (op : SchedOp) (hInv : SchedInv st) :
    SchedInv (applySchedOp st op) := by
  cases op with
  | schedule c s u m d n => exact schedule_SchedInv st c s u m d n hInv
  | cancel tid =>
    simp only [applySchedOp, cancelScheduledTask]
    cases hg : mapGet st tid with
    | some t =>
      simp only [hg]
      exact SchedInv_filter st _ hInv
    | none =>
      simp only [hg]
      exact hInv
  | cancelFor c s =>
    simp only [applySchedOp, cancelTasksForSchedule]
    exact SchedInv_filter st _ hInv

/-- Any sequence of scheduler calls from the empty table yields a
well-formed table. -/
theorem runSchedOps_SchedInv (ops : List SchedOp) : SchedInv (runSchedOps ops) := by
  have haux : ∀ l : List SchedOp, ∀ st, SchedInv st → SchedInv (l.foldl applySchedOp st) := by
    intro l
    induction l with
    | nil => intro st h; exact h
    | cons op rest ih =>
      intro st h
      exact ih _ (applySchedOp_SchedInv st op h)
  exact haux ops [] SchedInv_nil

/-- Claim C5: for every sequence of scheduler calls from the empty table,
at most one live task exists per (channel, schedule) pair; and a further
scheduleAutoDownload call for a pair (the second call for that pair)
cancels any prior task first, so afterwards getActiveTasks holds exactly
one entry for the pair, carrying the new call's due time
now + delayMinutes in milliseconds and its message id. -/
theorem scheduler_one_live_task_per_pair (ops : List SchedOp) (ch sch uid : String)
    (msg d2 t2 : Nat) :
    (∀ c s, (pairEntries (runSchedOps ops) c s).length ≤ 1) ∧
    (getActiveTasks (applySchedOp (runSchedOps ops)
        (.schedule ch sch uid msg d2 t2))).filter
        (fun ts => ts.channelId == ch && ts.scheduleId == sch) =
      [⟨ch ++ "_" ++ sch ++ "_" ++ toString t2, ch, sch, uid,
        t2 + d2 * 60 * 1000, some msg⟩] := by
  have hInv := runSchedOps_SchedInv ops
  constructor
  · exact hInv.2.2
  · have hpe := schedule_pairEntries (runSchedOps ops) ch sch uid msg d2 t2 hInv
    simp only [applySchedOp, getActiveTasks]
    rw [filter_of_map]
    show (List.map _ (pairEntries (scheduleAutoDownload (runSchedOps ops) ch sch uid msg d2 t2).2 ch sch)) = _
    rw [hpe]
    rfl

/-- Closed instance of the scheduler claim: the spec scenario with delays
10 and 5 minutes for the same pair; only the second due time remains. -/
theorem scheduler_one_live_task_per_pair_holds :
    (pairEntries (runSchedOps [SchedOp.schedule ("c1") ("s1") ("u") 7 10 1000])
      ("c1") ("s1")).length ≤ 1 ∧
    (getActiveTasks (applySchedOp (runSchedOps [SchedOp.schedule ("c1") ("s1") ("u") 7 10 1000])
        (.schedule ("c1") ("s1") ("u") 8 5 2000))).filter
        (fun ts => ts.channelId == "c1" && ts.scheduleId == "s1") =
      [⟨"c1" ++ "_" ++ "s1" ++ "_" ++ toString 2000, "c1", "s1", "u",
        2000 + 5 * 60 * 1000, some 8⟩] :=
  ⟨(scheduler_one_live_task_per_pair [SchedOp.schedule ("c1") ("s1") ("u") 7 10 1000]
      ("c1") ("s1") ("u") 8 5 2000).1 ("c1") ("s1"),
   (scheduler_one_live_task_per_pair [SchedOp.schedule ("c1") ("s1") ("u") 7 10 1000]
      ("c1") ("s1") ("u") 8 5 2000).2⟩
